import Mathlib

/-!
Verification of the easy-langchain-tools repository (google-map-tools):
a shallow embedding of `google_maps_client.py` and `google_maps_tools.py`.

Modelling conventions:
* Python floats carried through the adapters (latitudes, ratings) are
  modelled as `Rat`; the code only stores and compares them.
* A Python value that may be `None` is an `Option`.
* The provider network call is modelled by its outcome, an
  `Except String r` value: `Except.error e` stands for the underlying
  call raising an exception with message `e` (the broad `except` blocks
  in the source catch every exception).
* JSON values produced by the tool layer are modelled by `JVal`;
  `json.dumps` serialisation itself is not modelled, the claims are about
  the JSON object structure.
* Python dict literals with duplicate keys keep the first position of a
  key and the last value written to it; `dictOf` reproduces this.
-/

namespace GMaps

/-- JSON-like values as produced by the tool layer. -/
inductive JVal where
  | null : JVal
  | bool : Bool → JVal
  | str : String → JVal
  | int : Int → JVal
  | rat : Rat → JVal
  | arr : List JVal → JVal
  | obj : List (String × JVal) → JVal
deriving Repr

/-- Embed an optional string: Python `None` serialises as JSON null. -/
def optStr : Option String → JVal
  | none => JVal.null
  | some s => JVal.str s

/-- Embed an optional rational (Python float). -/
def optRat : Option Rat → JVal
  | none => JVal.null
  | some q => JVal.rat q

/-- Embed an optional integer. -/
def optInt : Option Int → JVal
  | none => JVal.null
  | some n => JVal.int n

/-- Embed an optional boolean. -/
def optBool : Option Bool → JVal
  | none => JVal.null
  | some b => JVal.bool b

/-- Embed an optional list of strings. -/
def optStrList : Option (List String) → JVal
  | none => JVal.null
  | some xs => JVal.arr (xs.map JVal.str)

/-- Location dataclass (google_maps_client.py lines 17-23). -/
structure Location where
  lat : Rat
  lng : Rat
  address : String
  place_id : Option String := none
deriving Repr, DecidableEq

/-- The part of the provider opening_hours dict that the code reads:
the two keys accessed with .get, for a truthy (non-empty) dict. -/
structure OpeningHoursDict where
  open_now : Option Bool
  weekday_text : Option (List String)
deriving Repr, DecidableEq

/-- PlaceInfo dataclass (google_maps_client.py lines 25-37).
`opening_hours = none` covers both Python None and the falsy empty dict,
which the handlers treat identically (they only test truthiness and call
.get on the two keys above). -/
structure PlaceInfo where
  name : String
  address : String
  location : Location
  rating : Option Rat := none
  price_level : Option Int := none
  types : Option (List String) := none
  photos : Option (List String) := none
  opening_hours : Option OpeningHoursDict := none
  phone : Option String := none
  website : Option String := none
deriving Repr, DecidableEq

/-- RouteInfo dataclass (google_maps_client.py lines 39-47); the raw
provider step records are carried through unparsed, as JSON values. -/
structure RouteInfo where
  origin : Location
  destination : Location
  distance : String
  duration : String
  steps : List JVal
  polyline : String
deriving Repr

/-- One raw place record of the provider places response, restricted to
the keys `_parse_place_result` reads. A missing
geometry/location entry makes the chained subscripts raise, which the
method catches, so it is the one field whose absence drops the record. -/
structure RawPlace where
  geometry_location : Option (Rat × Rat)
  formatted_address : Option String := none
  place_id : Option String := none
  name : Option String := none
  rating : Option Rat := none
  price_level : Option Int := none
  types : Option (List String) := none
  photos : Option (List String) := none
  opening_hours : Option OpeningHoursDict := none
  formatted_phone_number : Option String := none
  website : Option String := none
deriving Repr

/-- One raw geocoding result record, restricted to the keys
`geocode_async` reads (result[0]); geometry.location.lat and lng,
formatted_address, and the optional place_id. -/
structure GeocodeResult where
  lat : Rat
  lng : Rat
  formatted_address : String
  place_id : Option String := none
deriving Repr

/-- One leg of a raw directions route, restricted to the keys
`get_directions_async` reads. -/
structure Leg where
  start_lat : Rat
  start_lng : Rat
  end_lat : Rat
  end_lng : Rat
  start_address : String
  end_address : String
  distance_text : String
  duration_text : String
  steps : List JVal
deriving Repr

/-- One raw directions route: its legs and overview_polyline.points. -/
structure Route where
  legs : List Leg
  overview_polyline_points : String
deriving Repr

/-- The outgoing provider request dictionary built by
`search_places_async` (google_maps_client.py lines 122-151): a field is
`none` exactly when the corresponding key is absent from search_params. -/
structure SearchParams where
  query : String
  location : Option (Rat × Rat) := none
  radius : Option Int := none
  type : Option String := none
  language : Option String := none
  minprice : Option Int := none
  maxprice : Option Int := none
  opennow : Option Bool := none
  rankby : Option String := none
  pagetoken : Option String := none
deriving Repr, DecidableEq

/-- Python truthiness gate for an optional string: `if x:` passes for a
present, non-empty string only. -/
def pyStrOpt : Option String → Option String
  | none => none
  | some s => if s = "" then none else some s

/-- The search_params construction of `search_places_async`
(google_maps_client.py lines 122-151). `radius` is an int kwarg
(truthy iff nonzero); it is included only when `rankby != "distance"`. -/
def build_search_params (query : String) (location : Option Location) (radius : Int)
    (type : Option String) (language : Option String)
    (minprice maxprice : Option Int) (opennow : Option Bool)
    (rankby : Option String) (pagetoken : Option String) : SearchParams :=
  { query := query
    location := location.map (fun l => (l.lat, l.lng))
    radius := if radius ≠ 0 ∧ rankby ≠ some "distance" then some radius else none
    type := pyStrOpt type
    language := pyStrOpt language
    minprice := minprice
    maxprice := maxprice
    opennow := opennow
    rankby := pyStrOpt rankby
    pagetoken := pyStrOpt pagetoken }

/-- The `_parse_place_result` method (google_maps_client.py lines 264-296):
a record without the geometry location chain raises inside the try block
and is turned into none; otherwise every other field is read with .get
defaults. -/
def _parse_place_result (p : RawPlace) : Option PlaceInfo :=
  match p.geometry_location with
  | none => none
  | some (lat, lng) =>
      some { name := p.name.getD ""
             address := p.formatted_address.getD ""
             location := { lat := lat, lng := lng,
                           address := p.formatted_address.getD "",
                           place_id := p.place_id }
             rating := p.rating
             price_level := p.price_level
             types := some (p.types.getD [])
             photos := some (p.photos.getD [])
             opening_hours := p.opening_hours
             phone := p.formatted_phone_number
             website := p.website }

/-- Result processing of `search_places_async` (google_maps_client.py
lines 153-166): on a raised provider exception the except block returns
the empty list; otherwise each result record is parsed independently and
unparseable records are dropped. -/
def search_places_async (providerResult : Except String (List RawPlace)) : List PlaceInfo :=
  match providerResult with
  | Except.error _ => []
  | Except.ok results => results.filterMap _parse_place_result

/-- The `geocode_async` method (google_maps_client.py lines 66-93): empty
provider result gives None, a raised exception is caught and also gives
None, otherwise the first record is turned into a Location. -/
def geocode_async (providerResult : Except String (List GeocodeResult)) : Option Location :=
  match providerResult with
  | Except.error _ => none
  | Except.ok [] => none
  | Except.ok (r :: _) =>
      some { lat := r.lat, lng := r.lng,
             address := r.formatted_address, place_id := r.place_id }

/-- The `get_directions_async` method (google_maps_client.py lines
168-215): empty route list gives None; a first route with no legs makes
legs[0] raise, which the except block turns into None; otherwise the
first route and first leg are transformed into a RouteInfo. -/
def get_directions_async (providerResult : Except String (List Route)) : Option RouteInfo :=
  match providerResult with
  | Except.error _ => none
  | Except.ok [] => none
  | Except.ok (route :: _) =>
      match route.legs with
      | [] => none
      | leg :: _ =>
          some { origin := { lat := leg.start_lat, lng := leg.start_lng,
                             address := leg.start_address }
                 destination := { lat := leg.end_lat, lng := leg.end_lng,
                                  address := leg.end_address }
                 distance := leg.distance_text
                 duration := leg.duration_text
                 steps := leg.steps
                 polyline := route.overview_polyline_points }

/-- The local rating filter, written identically in
google_maps_client.py lines 259-260 and in the three tool handlers
(google_maps_tools.py lines 56-57, 137-138, 216-217):
`if rating_min: places = [p for p in places if p.rating and p.rating >= rating_min]`.
Python truthiness makes a rating_min of None or 0.0 skip the filter, and
makes a rating of None or 0.0 fail the comprehension condition. -/
def ratingFilter : Option Rat → List PlaceInfo → List PlaceInfo
  | none, places => places
  | some m, places =>
      if m ≠ 0 then
        places.filter (fun p =>
          match p.rating with
          | none => false
          | some r => if r = 0 then false else decide (m ≤ r))
      else places

/-- The request that `get_nearby_places` (google_maps_client.py lines
217-256) passes to search_places_async: its own dict omits the radius
kwarg when rankby is distance, in which case the inner default 5000
applies (and is filtered again by the inner rankby check). -/
def get_nearby_places_request (location : Location) (place_type : String)
    (radius : Int) (price_level : Option (Int × Int))
    (rankby : String) (language : String) : SearchParams :=
  let passedRadius : Option Int :=
    if radius ≠ 0 ∧ rankby ≠ "distance" then some radius else none
  build_search_params place_type (some location) (passedRadius.getD 5000)
    (some place_type) (some language)
    (price_level.map Prod.fst) (price_level.map Prod.snd)
    none (some rankby) none

/-- Result side of `get_nearby_places`: the searched places with the
local rating filter applied. -/
def get_nearby_places (rating_min : Option Rat)
    (providerResult : Except String (List RawPlace)) : List PlaceInfo :=
  ratingFilter rating_min (search_places_async providerResult)

/-! ### The price-level parsing shared by the three search handlers

`min_price, max_price = map(int, price_level.split("-"))` inside a
`try: ... except: pass` block, written identically in
google_maps_tools.py lines 32-39, 112-119 and 191-198. The assignment
succeeds exactly when the split yields two parts and both parts are
accepted by the CPython int constructor; on any failure both variables
stay None. `pyParseInt` models the int constructor for ASCII input:
surrounding whitespace is stripped, one optional sign is allowed, and the
body is digits with single underscores between digits. -/

/-- Digit-list accumulator for the value of an accepted int body. -/
def digitsToNat (cs : List Char) : Nat :=
  cs.foldl (fun acc c => acc * 10 + (c.toNat - Char.toNat '0')) 0

/-- No two consecutive underscores. -/
def noDoubleUnderscore : List Char → Bool
  | [] => true
  | [_] => true
  | a :: b :: rest => !(a == '_' && b == '_') && noDoubleUnderscore (b :: rest)

/-- Acceptance test for the digit body of an int literal: non-empty,
made of digits and underscores, starting and ending with a digit, with
no doubled underscore. -/
def pyIntBodyOk (cs : List Char) : Bool :=
  !cs.isEmpty &&
  cs.all (fun c => c.isDigit || c == '_') &&
  (match cs.head? with | some c => c.isDigit | none => false) &&
  (match cs.getLast? with | some c => c.isDigit | none => false) &&
  noDoubleUnderscore cs

/-- Strip leading and trailing whitespace, as the int constructor does. -/
def pyStrip (cs : List Char) : List Char :=
  ((cs.dropWhile Char.isWhitespace).reverse.dropWhile Char.isWhitespace).reverse

/-- The CPython int constructor on the characters of an ASCII string:
strip whitespace, optional single sign, digit body with grouping
underscores. -/
def pyParseInt (s : String) : Option Int :=
  match pyStrip s.toList with
  | [] => none
  | c :: rest =>
      let signBody : Int × List Char :=
        if c = '+' then (1, rest)
        else if c = '-' then (-1, rest)
        else (1, c :: rest)
      if pyIntBodyOk signBody.2 then
        some (signBody.1 * Int.ofNat (digitsToNat (signBody.2.filter (fun d => d ≠ '_'))))
      else none

/-- Python str.split with the one-character separator dash: every dash
starts a new part and empty parts are kept. -/
def splitOnDash : List Char → List (List Char)
  | [] => [[]]
  | c :: rest =>
      match splitOnDash rest with
      | [] => [[]]
      | g :: gs => if c = '-' then [] :: g :: gs else (c :: g) :: gs

/-- The shared price-level parsing block: a falsy (absent or empty)
price_level skips the block; otherwise the string is split on every
dash and the two-variable unpacking of map(int, parts) succeeds only
for exactly two int-parsable parts; every failure is swallowed and
leaves both prices None. -/
def parse_price_level : Option String → Option (Int × Int)
  | none => none
  | some s =>
      if s = "" then none
      else
        match splitOnDash s.toList with
        | [a, b] =>
            match pyParseInt (String.mk a), pyParseInt (String.mk b) with
            | some m, some n => some (m, n)
            | _, _ => none
        | _ => none

/-! ### Python dict-literal semantics

The output records of the tool handlers are Python dict literals; the
one in search_attractions writes the key opening_hours twice
(google_maps_tools.py lines 155-159), so the embedding keeps the written
pair sequence and resolves it the way a dict literal does: the first
position of a key is kept and the last value written to it wins. -/

/-- Assign one key: replace an existing entry in place, else append. -/
def dictInsert (d : List (String × JVal)) (k : String) (v : JVal) : List (String × JVal) :=
  if d.any (fun q => q.1 == k) then
    d.map (fun q => if q.1 == k then (k, v) else q)
  else d ++ [(k, v)]

/-- Resolve a dict literal written as a pair sequence. -/
def dictOf (pairs : List (String × JVal)) : List (String × JVal) :=
  pairs.foldl (fun d kv => dictInsert d kv.1 kv.2) []

/-- Subscript access on a resolved dict: the value stored at a key. -/
def getKey (k : String) : List (String × JVal) → Option JVal
  | [] => none
  | (k2, v) :: rest => if k2 == k then some v else getKey k rest

/-! ### The tool handlers (google_maps_tools.py) -/

/-- Python `x or d` for an optional string: a present non-empty string
wins, otherwise the default. -/
def orStr (o : Option String) (d : String) : String :=
  match o with
  | none => d
  | some s => if s = "" then d else s

/-- Truthiness of `place.opening_hours and place.opening_hours.get("open_now")`. -/
def openNowFlag (p : PlaceInfo) : Bool :=
  match p.opening_hours with
  | none => false
  | some d =>
      match d.open_now with
      | none => false
      | some b => b

/-- The nested opening_hours object built by each search handler. -/
def openingHoursObj (p : PlaceInfo) : JVal :=
  JVal.obj
    [("open_now", match p.opening_hours with
                  | none => JVal.null
                  | some d => optBool d.open_now),
     ("weekday_text", match p.opening_hours with
                      | none => JVal.null
                      | some d => optStrList d.weekday_text)]

/-- `place.types[:3] if place.types else []`: a falsy (absent or empty)
list gives [], otherwise the first three tags. -/
def typesOut (p : PlaceInfo) : List String :=
  match p.types with
  | none => []
  | some ts => if ts = [] then [] else ts.take 3

/-- `len(place.photos) if place.photos else 0`. -/
def photosCount (p : PlaceInfo) : Nat :=
  match p.photos with
  | none => 0
  | some ps => if ps = [] then 0 else ps.length

/-- `getattr(place, "user_ratings_total", 0)`: the PlaceInfo dataclass
declares no user_ratings_total attribute and nothing ever sets one, so
the getattr default 0 is always returned. -/
def userRatingsTotal (_ : PlaceInfo) : Nat := 0

/-- The nested location object of each search-handler record. -/
def locationObj (p : PlaceInfo) : JVal :=
  JVal.obj [("lat", JVal.rat p.location.lat), ("lng", JVal.rat p.location.lng)]

/-- The dict literal of one search_restaurants output record
(google_maps_tools.py lines 62-86), in source order. -/
def restaurantPairs (area : String) (cuisine : Option String) (p : PlaceInfo) :
    List (String × JVal) :=
  [("type", JVal.str "restaurant"),
   ("name", JVal.str p.name),
   ("address", JVal.str p.address),
   ("rating", optRat p.rating),
   ("price_level", optInt p.price_level),
   ("cuisine_type", JVal.str (orStr cuisine "restaurant")),
   ("phone", optStr p.phone),
   ("website", optStr p.website),
   ("location", locationObj p),
   ("operating_hours", JVal.str (if openNowFlag p then "Open now" else "Closed")),
   ("opening_hours", openingHoursObj p),
   ("business_status", JVal.str "Operating"),
   ("reviews", JVal.str (toString (userRatingsTotal p) ++ " ratings")),
   ("recommendation_reason",
    JVal.str ("Great " ++ orStr cuisine "restaurant" ++ " in " ++ area)),
   ("place_id", optStr p.location.place_id),
   ("types", JVal.arr ((typesOut p).map JVal.str)),
   ("photos", JVal.int (photosCount p))]

/-- One resolved search_restaurants output record. -/
def restaurantDict (area : String) (cuisine : Option String) (p : PlaceInfo) :
    List (String × JVal) :=
  dictOf (restaurantPairs area cuisine p)

/-- The dict literal of one search_attractions output record
(google_maps_tools.py lines 143-165), in source order; note the
repeated opening_hours key on lines 155 and 156. -/
def attractionPairs (area : String) (attraction_type : Option String) (p : PlaceInfo) :
    List (String × JVal) :=
  [("type", JVal.str "attraction"),
   ("name", JVal.str p.name),
   ("address", JVal.str p.address),
   ("rating", optRat p.rating),
   ("price_level", optInt p.price_level),
   ("phone", optStr p.phone),
   ("website", optStr p.website),
   ("location", locationObj p),
   ("opening_hours", JVal.str (if openNowFlag p then "Open now" else "Closed")),
   ("opening_hours", openingHoursObj p),
   ("description",
    JVal.str ("Popular " ++ orStr attraction_type "attraction" ++ " in " ++ area)),
   ("recommendation_reason",
    JVal.str ("Highly rated " ++ orStr attraction_type "attraction" ++ " in " ++ area)),
   ("place_id", optStr p.location.place_id),
   ("types", JVal.arr ((typesOut p).map JVal.str)),
   ("photos", JVal.int (photosCount p))]

/-- One resolved search_attractions output record. -/
def attractionDict (area : String) (attraction_type : Option String) (p : PlaceInfo) :
    List (String × JVal) :=
  dictOf (attractionPairs area attraction_type p)

/-- The dict literal of one search_hotels output record
(google_maps_tools.py lines 222-245), in source order. -/
def hotelPairs (area : String) (hotel_type : Option String) (p : PlaceInfo) :
    List (String × JVal) :=
  [("type", JVal.str "hotel"),
   ("name", JVal.str p.name),
   ("address", JVal.str p.address),
   ("rating", optRat p.rating),
   ("price_level", optInt p.price_level),
   ("phone", optStr p.phone),
   ("website", optStr p.website),
   ("location", locationObj p),
   ("operating_hours", JVal.str (if openNowFlag p then "Open now" else "Closed")),
   ("opening_hours", openingHoursObj p),
   ("business_status", JVal.str "Operating"),
   ("reviews", JVal.str (toString (userRatingsTotal p) ++ " ratings")),
   ("recommendation_reason",
    JVal.str ("Great " ++ orStr hotel_type "hotel" ++ " in " ++ area)),
   ("place_id", optStr p.location.place_id),
   ("types", JVal.arr ((typesOut p).map JVal.str)),
   ("photos", JVal.int (photosCount p))]

/-- One resolved search_hotels output record. -/
def hotelDict (area : String) (hotel_type : Option String) (p : PlaceInfo) :
    List (String × JVal) :=
  dictOf (hotelPairs area hotel_type p)

/-- The query string built by search_restaurants (lines 42-43):
`f"{cuisine} restaurant" if cuisine else "restaurant"` then `" in {area}"`. -/
def searchRestaurantsQuery (area : String) (cuisine : Option String) : String :=
  (match cuisine with
   | none => "restaurant"
   | some c => if c = "" then "restaurant" else c ++ " restaurant") ++ " in " ++ area

/-- The query string built by search_attractions (lines 122-124). -/
def searchAttractionsQuery (area : String) (attraction_type : Option String) : String :=
  "tourist attractions in " ++ area ++
  (match attraction_type with
   | none => ""
   | some t => if t = "" then "" else " " ++ t)

/-- The query string built by search_hotels (lines 201-203). -/
def searchHotelsQuery (area : String) (hotel_type : Option String) : String :=
  "hotels in " ++ area ++
  (match hotel_type with
   | none => ""
   | some t => if t = "" then "" else " " ++ t)

/-- The provider request issued by search_restaurants (lines 46-53):
query, type restaurant, language en, the given radius, and the parsed
optional price bounds. -/
def searchRestaurantsRequest (area : String) (cuisine : Option String)
    (price_level : Option String) (radius : Int) : SearchParams :=
  let mp := parse_price_level price_level
  build_search_params (searchRestaurantsQuery area cuisine) none radius
    (some "restaurant") (some "en") (mp.map Prod.fst) (mp.map Prod.snd)
    none none none

/-- The provider request issued by search_attractions (lines 127-134). -/
def searchAttractionsRequest (area : String) (attraction_type : Option String)
    (price_level : Option String) (radius : Int) : SearchParams :=
  let mp := parse_price_level price_level
  build_search_params (searchAttractionsQuery area attraction_type) none radius
    (some "tourist_attraction") (some "en") (mp.map Prod.fst) (mp.map Prod.snd)
    none none none

/-- The provider request issued by search_hotels (lines 206-213). -/
def searchHotelsRequest (area : String) (hotel_type : Option String)
    (price_level : Option String) (radius : Int) : SearchParams :=
  let mp := parse_price_level price_level
  build_search_params (searchHotelsQuery area hotel_type) none radius
    (some "lodging") (some "en") (mp.map Prod.fst) (mp.map Prod.snd)
    none none none

/-- The JSON array returned by search_restaurants on the success path:
one record per place retained by the rating filter. -/
def searchRestaurantsOutput (area : String) (cuisine : Option String)
    (rating_min : Option Rat) (places : List PlaceInfo) : JVal :=
  JVal.arr ((ratingFilter rating_min places).map
    (fun p => JVal.obj (restaurantDict area cuisine p)))

/-- The JSON array returned by search_attractions on the success path. -/
def searchAttractionsOutput (area : String) (attraction_type : Option String)
    (rating_min : Option Rat) (places : List PlaceInfo) : JVal :=
  JVal.arr ((ratingFilter rating_min places).map
    (fun p => JVal.obj (attractionDict area attraction_type p)))

/-- The JSON array returned by search_hotels on the success path. -/
def searchHotelsOutput (area : String) (hotel_type : Option String)
    (rating_min : Option Rat) (places : List PlaceInfo) : JVal :=
  JVal.arr ((ratingFilter rating_min places).map
    (fun p => JVal.obj (hotelDict area hotel_type p)))

/-- The JSON value returned by the get_directions handler
(google_maps_tools.py lines 266-291) given the client result. -/
def get_directions_tool (mode : String) (route : Option RouteInfo) : JVal :=
  match route with
  | some r =>
      JVal.obj
        [("origin", JVal.obj [("address", JVal.str r.origin.address),
                              ("lat", JVal.rat r.origin.lat),
                              ("lng", JVal.rat r.origin.lng)]),
         ("destination", JVal.obj [("address", JVal.str r.destination.address),
                                   ("lat", JVal.rat r.destination.lat),
                                   ("lng", JVal.rat r.destination.lng)]),
         ("distance", JVal.str r.distance),
         ("duration", JVal.str r.duration),
         ("steps", JVal.arr r.steps),
         ("mode", JVal.str mode)]
  | none => JVal.obj [("error", JVal.str "Unable to get route information")]

/-- The JSON value returned by the get_location_info handler
(google_maps_tools.py lines 304-316) given the client result. -/
def get_location_info_tool (loc : Option Location) : JVal :=
  match loc with
  | some l =>
      JVal.obj [("address", JVal.str l.address),
                ("lat", JVal.rat l.lat),
                ("lng", JVal.rat l.lng),
                ("place_id", optStr l.place_id)]
  | none => JVal.obj [("error", JVal.str "Unable to find this address")]

/-! ### Resolution of the three record dict literals -/

/-- The restaurant dict literal has pairwise distinct keys, so it
resolves to the written pair sequence. -/
theorem restaurantDict_eq (area : String) (c : Option String) (p : PlaceInfo) :
    restaurantDict area c p = restaurantPairs area c p := by
  simp [restaurantDict, dictOf, dictInsert, restaurantPairs]

/-- The attraction dict literal repeats the key opening_hours: the
resolved dict keeps one entry for it, at the first position, holding the
later value (the nested object), so the record has no open-now text
field. -/
theorem attractionDict_eq (area : String) (c : Option String) (p : PlaceInfo) :
    attractionDict area c p =
    [("type", JVal.str "attraction"),
     ("name", JVal.str p.name),
     ("address", JVal.str p.address),
     ("rating", optRat p.rating),
     ("price_level", optInt p.price_level),
     ("phone", optStr p.phone),
     ("website", optStr p.website),
     ("location", locationObj p),
     ("opening_hours", openingHoursObj p),
     ("description",
      JVal.str ("Popular " ++ orStr c "attraction" ++ " in " ++ area)),
     ("recommendation_reason",
      JVal.str ("Highly rated " ++ orStr c "attraction" ++ " in " ++ area)),
     ("place_id", optStr p.location.place_id),
     ("types", JVal.arr ((typesOut p).map JVal.str)),
     ("photos", JVal.int (photosCount p))] := by
  simp [attractionDict, dictOf, dictInsert, attractionPairs]

/-- The hotel dict literal has pairwise distinct keys, so it resolves to
the written pair sequence. -/
theorem hotelDict_eq (area : String) (c : Option String) (p : PlaceInfo) :
    hotelDict area c p = hotelPairs area c p := by
  simp [hotelDict, dictOf, dictInsert, hotelPairs]

/-- The key list of a resolved restaurant record, a constant. -/
def restaurantFieldNames : List String :=
  ["type", "name", "address", "rating", "price_level", "cuisine_type",
   "phone", "website", "location", "operating_hours", "opening_hours",
   "business_status", "reviews", "recommendation_reason", "place_id",
   "types", "photos"]

/-- The key list of a resolved attraction record, a constant. -/
def attractionFieldNames : List String :=
  ["type", "name", "address", "rating", "price_level", "phone", "website",
   "location", "opening_hours", "description", "recommendation_reason",
   "place_id", "types", "photos"]

/-- The key list of a resolved hotel record, a constant. -/
def hotelFieldNames : List String :=
  ["type", "name", "address", "rating", "price_level", "phone", "website",
   "location", "operating_hours", "opening_hours", "business_status",
   "reviews", "recommendation_reason", "place_id", "types", "photos"]

/-- Keys of the resolved restaurant record. -/
theorem restaurantDict_keys (area : String) (c : Option String) (p : PlaceInfo) :
    (restaurantDict area c p).map Prod.fst = restaurantFieldNames := by
  rw [restaurantDict_eq]; rfl

/-- Keys of the resolved attraction record. -/
theorem attractionDict_keys (area : String) (c : Option String) (p : PlaceInfo) :
    (attractionDict area c p).map Prod.fst = attractionFieldNames := by
  rw [attractionDict_eq]; rfl

/-- Keys of the resolved hotel record. -/
theorem hotelDict_keys (area : String) (c : Option String) (p : PlaceInfo) :
    (hotelDict area c p).map Prod.fst = hotelFieldNames := by
  rw [hotelDict_eq]; rfl

/-- The rating filter when it is applied: Python truthiness makes
rating_min values of None and 0.0 skip it entirely, so the applied case
is a present non-zero threshold. -/
theorem ratingFilter_applied (m : Rat) (hm : m ≠ 0) (places : List PlaceInfo) :
    ratingFilter (some m) places =
      places.filter (fun p =>
        match p.rating with
        | none => false
        | some r => if r = 0 then false else decide (m ≤ r)) := by
  simp only [ratingFilter]
  rw [if_pos hm]

/-! ### Definitions following the words of the specification

These definitions transcribe what the specification asserts and are
compared with the definitions embedded from the source. -/

/-- Modelled from the spec, §4.2: the field set that every search-handler
output record is said to carry — type tag, name, address, rating,
price_level, phone, website, nested location, the boolean-derived
open-now text field (named operating_hours in the restaurant and hotel
records), the opening_hours object, recommendation_reason, place_id, the
category tags, and the photo count. -/
def specCommonFields : List String :=
  ["type", "name", "address", "rating", "price_level", "phone", "website",
   "location", "operating_hours", "opening_hours", "recommendation_reason",
   "place_id", "types", "photos"]

/-- Modelled from the spec, §4.2 table: the restaurant extras are
cuisine_type and business_status. -/
def specRestaurantFields : List String :=
  specCommonFields ++ ["cuisine_type", "business_status"]

/-- Modelled from the spec, §4.2 table: the attraction extra is
description. -/
def specAttractionFields : List String :=
  specCommonFields ++ ["description"]

/-- Modelled from the spec, §4.2 table: the hotel extra is
business_status. -/
def specHotelFields : List String :=
  specCommonFields ++ ["business_status"]

/-- Modelled from the spec, §4.1: the rating filter said to retain
exactly the places with a present rating at least the threshold. -/
def specRatingFilter (rating_min : Rat) (places : List PlaceInfo) : List PlaceInfo :=
  places.filter (fun p =>
    match p.rating with
    | none => false
    | some r => decide (rating_min ≤ r))

/-- The amended retention predicate of the applied rating filter: rating
present, non-zero (Python truthiness drops a 0.0 rating), and at least
the threshold. -/
def amendedRatingPred (m : Rat) (p : PlaceInfo) : Bool :=
  match p.rating with
  | none => false
  | some r => decide (r ≠ 0) && decide (m ≤ r)

/-- Retention predicate of the C7 scenario as the claim words it: the
place has a rating and it is not strictly below 4.0. -/
def specKeepRatedAtLeast4 (p : PlaceInfo) : Bool :=
  match p.rating with
  | none => false
  | some r => decide ((4 : Rat) ≤ r)

/-- Modelled from the spec: the deterministic transform of the first
route and first leg that the directions handler output is said to equal —
origin and destination from the leg start and end location and address,
distance and duration text from the leg, steps passed through, plus the
requested mode. -/
def specFirstLegTransform (mode : String) (leg : Leg) : JVal :=
  JVal.obj
    [("origin", JVal.obj [("address", JVal.str leg.start_address),
                          ("lat", JVal.rat leg.start_lat),
                          ("lng", JVal.rat leg.start_lng)]),
     ("destination", JVal.obj [("address", JVal.str leg.end_address),
                               ("lat", JVal.rat leg.end_lat),
                               ("lng", JVal.rat leg.end_lng)]),
     ("distance", JVal.str leg.distance_text),
     ("duration", JVal.str leg.duration_text),
     ("steps", JVal.arr leg.steps),
     ("mode", JVal.str mode)]

/-! ### Concrete exemplar inputs -/

/-- A place with every optional provider field absent. -/
def p0 : PlaceInfo :=
  { name := "A"
    address := "addr"
    location := { lat := 0, lng := 0, address := "addr" } }

/-- A place whose provider rating is exactly 0.0: present but falsy. -/
def pZero : PlaceInfo :=
  { name := "Z"
    address := ""
    location := { lat := 0, lng := 0, address := "" }
    rating := some 0 }

/-- A place rated 4.5. -/
def pGood : PlaceInfo :=
  { name := "G"
    address := ""
    location := { lat := 0, lng := 0, address := "" }
    rating := some (9 / 2) }

/-- A one-leg exemplar route leg. -/
def legEx : Leg :=
  { start_lat := 1, start_lng := 2, end_lat := 3, end_lng := 4
    start_address := "S", end_address := "E"
    distance_text := "5 km", duration_text := "10 mins", steps := [] }

/-- An exemplar route holding exactly the leg above. -/
def routeEx : Route :=
  { legs := [legEx], overview_polyline_points := "poly" }

/-! ### The claims -/

/-- C1, counterexample. The claim says each search-handler record holds
exactly the §4.2 field set (common fields plus the stated extras). It is
false on two counts: the restaurant and hotel records also carry a
reviews field that the table does not list, and the attraction record
lacks the boolean-derived open-now text field because its dict literal
writes the opening_hours key twice, so only the nested object survives. -/
theorem C1_counterexample :
    "reviews" ∈ (restaurantDict "Shibuya" none p0).map Prod.fst ∧
    "reviews" ∉ specRestaurantFields ∧
    "reviews" ∈ (hotelDict "Tokyo" none p0).map Prod.fst ∧
    "reviews" ∉ specHotelFields ∧
    "operating_hours" ∈ specAttractionFields ∧
    "operating_hours" ∉ (attractionDict "Tokyo" none p0).map Prod.fst := by
  rw [restaurantDict_keys, hotelDict_keys, attractionDict_keys]
  refine ⟨by decide, by decide, by decide, by decide, by decide, by decide⟩

/-- C1, amended. Every record produced by the three search handlers has
a fixed key list independent of which optional provider fields were
present — for restaurants the §4.2 common fields plus cuisine_type,
business_status and additionally reviews; for attractions the common
fields without the open-now text field, plus description; for hotels the
common fields plus business_status and additionally reviews — and a
missing optional provider field yields the null/empty default value
under its key, never an absent key. -/
theorem C1_theorem (p : PlaceInfo) (area : String)
    (cuisine atype htype : Option String) :
    (restaurantDict area cuisine p).map Prod.fst = restaurantFieldNames ∧
    (attractionDict area atype p).map Prod.fst = attractionFieldNames ∧
    (hotelDict area htype p).map Prod.fst = hotelFieldNames ∧
    getKey "rating" (restaurantDict area cuisine { p with rating := none }) =
      some JVal.null ∧
    getKey "phone" (restaurantDict area cuisine { p with phone := none }) =
      some JVal.null ∧
    getKey "website" (restaurantDict area cuisine { p with website := none }) =
      some JVal.null ∧
    getKey "types" (restaurantDict area cuisine { p with types := none }) =
      some (JVal.arr []) ∧
    getKey "photos" (restaurantDict area cuisine { p with photos := none }) =
      some (JVal.int 0) ∧
    getKey "opening_hours"
        (restaurantDict area cuisine { p with opening_hours := none }) =
      some (JVal.obj [("open_now", JVal.null), ("weekday_text", JVal.null)]) := by
  refine ⟨restaurantDict_keys area cuisine p, attractionDict_keys area atype p,
          hotelDict_keys area htype p, ?_, ?_, ?_, ?_, ?_, ?_⟩ <;>
    rw [restaurantDict_eq] <;>
    simp [restaurantPairs, getKey, optRat, optStr, typesOut, photosCount,
          openingHoursObj]

/-- C2, counterexample. The claim counts out-of-range values among the
malformed strings whose price filter is omitted, but the code never
validates the 0-4 range: the string 7-9 parses and both bounds are sent
to the provider. -/
theorem C2_counterexample :
    parse_price_level (some "7-9") = some (7, 9) ∧
    (searchRestaurantsRequest "Tokyo" none (some "7-9") 5000).minprice = some 7 ∧
    (searchRestaurantsRequest "Tokyo" none (some "7-9") 5000).maxprice = some 9 := by
  refine ⟨by decide, by decide, by decide⟩

/-- C2, amended. For every price_level string splitting on dashes into
exactly two int-parsable parts, the two integers are extracted exactly
and sent as minprice and maxprice by all three search handlers, with no
0-4 range validation; for every other string the parse failure is
swallowed and the price filter is omitted entirely (neither bound sent). -/
theorem C2_theorem (s area : String) (extra : Option String) (radius : Int) :
    (∀ a b m n, splitOnDash s.toList = [a, b] →
        pyParseInt (String.mk a) = some m → pyParseInt (String.mk b) = some n →
        parse_price_level (some s) = some (m, n) ∧
        (searchRestaurantsRequest area extra (some s) radius).minprice = some m ∧
        (searchRestaurantsRequest area extra (some s) radius).maxprice = some n ∧
        (searchAttractionsRequest area extra (some s) radius).minprice = some m ∧
        (searchAttractionsRequest area extra (some s) radius).maxprice = some n ∧
        (searchHotelsRequest area extra (some s) radius).minprice = some m ∧
        (searchHotelsRequest area extra (some s) radius).maxprice = some n) ∧
    ((¬ ∃ a b m n, splitOnDash s.toList = [a, b] ∧
        pyParseInt (String.mk a) = some m ∧ pyParseInt (String.mk b) = some n) →
        parse_price_level (some s) = none ∧
        (searchRestaurantsRequest area extra (some s) radius).minprice = none ∧
        (searchRestaurantsRequest area extra (some s) radius).maxprice = none ∧
        (searchAttractionsRequest area extra (some s) radius).minprice = none ∧
        (searchAttractionsRequest area extra (some s) radius).maxprice = none ∧
        (searchHotelsRequest area extra (some s) radius).minprice = none ∧
        (searchHotelsRequest area extra (some s) radius).maxprice = none) := by
  constructor
  · intro a b m n hsplit hma hmb
    have hs : s ≠ "" := by
      intro he
      rw [he] at hsplit
      simp [splitOnDash] at hsplit
    have hp : parse_price_level (some s) = some (m, n) := by
      simp only [parse_price_level]
      rw [if_neg hs, hsplit]
      simp only [hma, hmb]
    exact ⟨hp, by simp [searchRestaurantsRequest, searchAttractionsRequest,
                        searchHotelsRequest, build_search_params, hp]⟩
  · intro hno
    have hp : parse_price_level (some s) = none := by
      simp only [parse_price_level]
      by_cases hs : s = ""
      · rw [if_pos hs]
      · rw [if_neg hs]
        split
        next a b heq =>
          cases hma : pyParseInt (String.mk a) with
          | none => rfl
          | some m =>
              cases hmb : pyParseInt (String.mk b) with
              | none => rfl
              | some n => exact absurd ⟨a, b, m, n, heq, hma, hmb⟩ hno
        next => rfl
    exact ⟨hp, by simp [searchRestaurantsRequest, searchAttractionsRequest,
                        searchHotelsRequest, build_search_params, hp]⟩

/-- C2, witness: the valid string 2-3 is extracted as bounds 2 and 3. -/
theorem C2_witness :
    parse_price_level (some "2-3") = some (2, 3) ∧
    (searchRestaurantsRequest "Shibuya" none (some "2-3") 5000).minprice = some 2 ∧
    (searchRestaurantsRequest "Shibuya" none (some "2-3") 5000).maxprice = some 3 ∧
    (searchAttractionsRequest "Shibuya" none (some "2-3") 5000).minprice = some 2 ∧
    (searchAttractionsRequest "Shibuya" none (some "2-3") 5000).maxprice = some 3 ∧
    (searchHotelsRequest "Shibuya" none (some "2-3") 5000).minprice = some 2 ∧
    (searchHotelsRequest "Shibuya" none (some "2-3") 5000).maxprice = some 3 :=
  (C2_theorem ("2-3") ("Shibuya") none 5000).1
    (String.toList "2") (String.toList "3") 2 3 (by decide) (by decide) (by decide)

/-- C3, counterexample. The claim says the applied filter retains
exactly the places with a present rating at least the threshold, but the
comprehension condition uses Python truthiness on the rating itself: a
place whose rating is present and exactly 0.0 is dropped even when the
applied threshold -1 is below it. -/
theorem C3_counterexample :
    ratingFilter (some (-1)) [pZero] = [] ∧
    specRatingFilter (-1) [pZero] = [pZero] := by
  constructor
  · norm_num [ratingFilter, pZero]
  · norm_num [specRatingFilter, pZero]

/-- C3, amended. For every threshold for which the rating filter is
applied (a present, non-zero rating_min), the filtered list is exactly
the subsequence, in original order, of places whose rating is present,
non-zero (a 0.0 rating is falsy and treated like an absent one), and at
least the threshold. -/
theorem C3_theorem (m : Rat) (places : List PlaceInfo) (hm : m ≠ 0) :
    ratingFilter (some m) places = places.filter (amendedRatingPred m) ∧
    (ratingFilter (some m) places).Sublist places := by
  have h1 := ratingFilter_applied m hm places
  constructor
  · rw [h1]
    apply List.filter_congr
    intro p _
    cases hr : p.rating with
    | none => simp [amendedRatingPred, hr]
    | some r =>
        by_cases h0 : r = 0
        · simp [amendedRatingPred, hr, h0]
        · simp [amendedRatingPred, hr, h0]
  · rw [h1]
    exact List.filter_sublist places

/-- C3, witness: threshold 4 applied to a 0.0-rated and a 4.5-rated
place. -/
theorem C3_witness :
    ratingFilter (some 4) [pZero, pGood] =
      [pZero, pGood].filter (amendedRatingPred 4) ∧
    (ratingFilter (some 4) [pZero, pGood]).Sublist [pZero, pGood] :=
  C3_theorem 4 [pZero, pGood] (by norm_num)

/-- C4. With at least one route whose first route has at least one leg,
the directions handler output is the deterministic first-leg transform;
with zero routes it is the literal error object. -/
theorem C4_theorem (routes : List Route) (mode : String) :
    (∀ r rs l ls, routes = r :: rs → r.legs = l :: ls →
        get_directions_tool mode (get_directions_async (Except.ok routes)) =
          specFirstLegTransform mode l) ∧
    (routes = [] →
        get_directions_tool mode (get_directions_async (Except.ok routes)) =
          JVal.obj [("error", JVal.str "Unable to get route information")]) := by
  constructor
  · rintro r rs l ls rfl hleg
    simp [get_directions_async, hleg, get_directions_tool, specFirstLegTransform]
  · rintro rfl
    rfl

/-- C4, witness: a concrete one-route one-leg response transforms, and
the empty response yields the error object. -/
theorem C4_witness :
    get_directions_tool "transit" (get_directions_async (Except.ok [routeEx])) =
      specFirstLegTransform "transit" legEx ∧
    get_directions_tool "transit" (get_directions_async (Except.ok ([] : List Route))) =
      JVal.obj [("error", JVal.str "Unable to get route information")] :=
  ⟨(C4_theorem [routeEx] "transit").1 routeEx [] legEx [] rfl rfl,
   (C4_theorem [] "transit").2 rfl⟩

/-- C5. A raised provider exception is swallowed at every client call
site: geocoding returns None, place search returns the empty list, and
directions returns None. -/
theorem C5_theorem (e : String) :
    geocode_async (Except.error e) = none ∧
    search_places_async (Except.error e) = [] ∧
    get_directions_async (Except.error e) = none :=
  ⟨rfl, rfl, rfl⟩

/-- C6. Whenever rank-by-distance is requested, the radius key is absent
from the outgoing provider request, for any radius value — both in the
search_places_async parameter construction and through the
get_nearby_places composition. -/
theorem C6_theorem :
    (∀ (query : String) (loc : Option Location) (radius : Int)
       (ty lang : Option String) (minp maxp : Option Int)
       (opennow : Option Bool) (ptok : Option String),
        (build_search_params query loc radius ty lang minp maxp opennow
          (some "distance") ptok).radius = none) ∧
    (∀ (location : Location) (place_type : String) (radius : Int)
       (price_level : Option (Int × Int)) (language : String),
        (get_nearby_places_request location place_type radius price_level
          "distance" language).radius = none) := by
  constructor
  · intro query loc radius ty lang minp maxp opennow ptok
    simp [build_search_params]
  · intro location place_type radius price_level language
    simp [get_nearby_places_request, build_search_params]

/-- C7. The Shibuya ramen scenario: the provider request carries the
query string built as "ramen restaurant in Shibuya", type restaurant and
price bounds 2 and 3, and the handler output keeps exactly the returned
places whose rating is present and not below 4.0. -/
theorem C7_theorem :
    (searchRestaurantsRequest "Shibuya" (some "ramen") (some "2-3") 5000).query =
      "ramen restaurant in Shibuya" ∧
    (searchRestaurantsRequest "Shibuya" (some "ramen") (some "2-3") 5000).type =
      some "restaurant" ∧
    (searchRestaurantsRequest "Shibuya" (some "ramen") (some "2-3") 5000).minprice =
      some 2 ∧
    (searchRestaurantsRequest "Shibuya" (some "ramen") (some "2-3") 5000).maxprice =
      some 3 ∧
    ∀ places, searchRestaurantsOutput "Shibuya" (some "ramen") (some 4) places =
      JVal.arr ((places.filter specKeepRatedAtLeast4).map
        (fun p => JVal.obj (restaurantDict "Shibuya" (some "ramen") p))) := by
  refine ⟨by decide, by decide, by decide, by decide, ?_⟩
  intro places
  unfold searchRestaurantsOutput
  rw [ratingFilter_applied 4 (by norm_num) places]
  congr 1
  apply congrArg
  apply List.filter_congr
  intro p _
  cases hr : p.rating with
  | none => simp [specKeepRatedAtLeast4, hr]
  | some r =>
      by_cases h0 : r = 0
      · subst h0
        have : ¬ ((4 : Rat) ≤ 0) := by norm_num
        simp [specKeepRatedAtLeast4, hr, this]
      · simp [specKeepRatedAtLeast4, hr, h0]

/-- C8. When geocoding yields no result (the provider resolves the
address to an empty result list), the location-lookup handler outputs
exactly the literal error object. -/
theorem C8_theorem :
    get_location_info_tool (geocode_async (Except.ok ([] : List GeocodeResult))) =
      JVal.obj [("error", JVal.str "Unable to find this address")] := rfl

/-- C9. The types list of every record of the three search handlers
holds at most three entries, and a place with absent category tags gets
the empty list. -/
theorem C9_theorem (p : PlaceInfo) (area : String)
    (cuisine atype htype : Option String) :
    getKey "types" (restaurantDict area cuisine p) =
      some (JVal.arr ((typesOut p).map JVal.str)) ∧
    getKey "types" (attractionDict area atype p) =
      some (JVal.arr ((typesOut p).map JVal.str)) ∧
    getKey "types" (hotelDict area htype p) =
      some (JVal.arr ((typesOut p).map JVal.str)) ∧
    (typesOut p).length ≤ 3 ∧
    typesOut { p with types := none } = [] := by
  refine ⟨?_, ?_, ?_, ?_, rfl⟩
  · rw [restaurantDict_eq]; simp [restaurantPairs, getKey]
  · rw [attractionDict_eq]; simp [getKey]
  · rw [hotelDict_eq]; simp [hotelPairs, getKey]
  · cases hts : p.types with
    | none => simp [typesOut, hts]
    | some ts =>
        by_cases h : ts = []
        · simp [typesOut, hts, h]
        · simp only [typesOut, hts]
          rw [if_neg h, List.length_take]
          exact min_le_left _ _

/-- C10. The business_status field of every restaurant and hotel record
is the constant Operating, and the reviews field is the constant
0 ratings: PlaceInfo declares no user_ratings_total attribute, so the
getattr default 0 is always interpolated, whatever the provider data. -/
theorem C10_theorem (p : PlaceInfo) (area : String) (cuisine htype : Option String) :
    getKey "business_status" (restaurantDict area cuisine p) =
      some (JVal.str "Operating") ∧
    getKey "reviews" (restaurantDict area cuisine p) =
      some (JVal.str "0 ratings") ∧
    getKey "business_status" (hotelDict area htype p) =
      some (JVal.str "Operating") ∧
    getKey "reviews" (hotelDict area htype p) =
      some (JVal.str "0 ratings") := by
  have h0 : toString (0 : Nat) ++ " ratings" = "0 ratings" := by decide
  refine ⟨?_, ?_, ?_, ?_⟩ <;>
    first
      | (rw [restaurantDict_eq]
         simp [restaurantPairs, getKey, userRatingsTotal, h0])
      | (rw [hotelDict_eq]
         simp [hotelPairs, getKey, userRatingsTotal, h0])

end GMaps
